import Mathlib

/-!
# Verification of the illegal-construction case-management core

Shallow embedding of the repository's case lifecycle and status-linkage
engine (src/services/case_service.py, src/db/crud.py, src/models/schemas.py,
src/models/sqlalchemy_model.py, src/api/cases.py) together with proofs of the
specification claims about it.

Conventions of the embedding:
* the relational store is an explicit `Store` value threaded through every
  operation; a SQL commit is a returned `Store`;
* machine floats (the three area columns) are embedded as `Rat` — the source
  only ever compares them with `>` on exactly representable values;
* `datetime` values are opaque ticks (`Nat`), the ambient wall clock and the
  current calendar year live inside the store (`clock`, `current_year`);
* fallible Python code returns `Except AppError` (an uncaught exception /
  HTTPException aborts the call); a storage-constraint rejection (NOT NULL,
  FOREIGN KEY, UNIQUE) is `AppError.integrity`;
* the source's pre-refactor dangling identifiers (for example
  `models.DemolitionProgress` for the `EnforcementAction` table,
  `case_service.create_case_service` for `case_service.create_case`,
  `action_data.status` for the revised schema field `status_snapshot`) are
  resolved to the revised names actually declared in the source, as the
  specification's design notes direct for the old-vs-revised naming history.
-/

/-! ## String and numeral primitives

Models of the Python / SQL string operations the source leans on:
byte-wise collation of ORDER BY, LIKE prefix matching, slicing,
`int()` parsing, `%04d` formatting and substring containment. -/

/-- Lexicographic (byte-wise) comparison of character lists: the collation the
database uses to evaluate `ORDER BY case_number DESC` on the ASCII case
numbers of this system. -/
def charListLt : List Char → List Char → Bool
  | [], [] => false
  | [], _ :: _ => true
  | _ :: _, [] => false
  | a :: as, b :: bs => if a < b then true else if b < a then false else charListLt as bs

/-- SQL `ORDER BY col DESC ... .first()`: the maximum of the column values under
`charListLt`, `none` on an empty result set. -/
def sqlMaxDesc : List String → Option String
  | [] => none
  | x :: xs =>
    match sqlMaxDesc xs with
    | none => some x
    | some m => if charListLt m.data x.data then some x else some m

/-- Character-list prefix test, used to model `LIKE 'p%'`. -/
def charsPref : List Char → List Char → Bool
  | [], _ => true
  | _ :: _, [] => false
  | a :: as, b :: bs => a == b && charsPref as bs

/-- SQL `col LIKE 'p%'` (the only LIKE pattern the source builds: the year
followed by the wildcard). -/
def likeYearPref (p s : String) : Bool := charsPref p.data s.data

/-- Python `s[4:]` — slicing by characters. -/
def strDrop4 (s : String) : String := ⟨s.data.drop 4⟩

/-- Decimal digits of `n`, most significant first (`[0]` for zero); the fuel
argument only bounds the recursion and is always sufficient. -/
def natToDigitsAux : Nat → Nat → List Nat
  | 0, _ => []
  | fuel + 1, n => if n < 10 then [n] else natToDigitsAux fuel (n / 10) ++ [n % 10]

/-- Decimal digits of `n`, most significant first. -/
def natToDigits (n : Nat) : List Nat := natToDigitsAux (n + 1) n

/-- The ASCII character of the decimal digit `d`. -/
def digitChar (d : Nat) : Char := Char.ofNat (48 + d)

/-- Python `f"{n:04d}"` for a natural number: the decimal numeral of `n`
left-padded with zeros to at least four characters. -/
def pad4 (n : Nat) : String :=
  ⟨List.replicate (4 - (natToDigits n).length) '0' ++ (natToDigits n).map digitChar⟩

/-- Python `int(s)` restricted to the plain nonnegative decimal numerals the
numbering code feeds it; `none` models the `ValueError` raised on anything
else (in particular on the empty string). -/
def parseNat (s : String) : Option Nat :=
  if s.data.isEmpty then none
  else if s.data.all (fun c => c.isDigit) then
    some (s.data.foldl (fun a c => a * 10 + (c.toNat - 48)) 0)
  else none

/-- Does `needle` occur as a contiguous run inside `hay`? -/
def charsSub (needle : List Char) : List Char → Bool
  | [] => needle.isEmpty
  | c :: t => charsPref needle (c :: t) || charsSub needle t

/-- Python `needle in hay`: case-sensitive substring containment. -/
def containsSub (hay needle : String) : Bool := charsSub needle.data hay.data

/-! ## Data model

Embeddings of the persisted rows (src/models/sqlalchemy_model.py) and of the
input schemas (src/models/schemas.py).  Timestamps and dates are opaque ticks.
The three area columns (Float in the source) are embedded as `Rat`. -/

/-- Row of the geolocations table (sqlalchemy_model.Geolocation). -/
structure Geolocation where
  id : Nat
  address : String
  longitude : Rat
  latitude : Rat
  community : String
  address_number : String
  created_at : Nat
deriving DecidableEq

/-- Row of the violation_cases table (sqlalchemy_model.ViolationCase).
The columns land_type, engineering_category and case_source are NOT NULL
strings at storage even though the input schema leaves them optional. -/
structure ViolationCase where
  id : Nat
  geolocation_id : Nat
  case_number : String
  status : String
  construction_unit : String
  building_type : String
  land_area : Rat
  building_area : Rat
  violation_area : Rat
  permit_status : String
  land_type : String
  engineering_category : String
  case_source : String
  violation_reason : Option String
  start_date : Option Nat
  discovery_date : Option Nat
  created_at : Nat
  updated_at : Nat
deriving DecidableEq

/-- Row of the enforcement_actions table (sqlalchemy_model.EnforcementAction).
Field names follow the revised schema vocabulary (action_stage / executor /
action_date); the table declares them as demolition_stage / demolition_guys /
demolition_date, the pre-refactor names of the same columns.  The
status_snapshot column is NOT NULL. -/
structure EnforcementAction where
  id : Nat
  case_id : Nat
  action_stage : String
  executor : String
  action_date : Nat
  status_snapshot : String
  is_completed : Bool
  created_at : Nat
deriving DecidableEq

/-- Modelled from the spec: the building-progress storage model (the class
`BuildingViolationProgress` that crud.create_violation_action instantiates) is
absent from src/models/sqlalchemy_model.py; its fields follow spec section 3
(description, inspector, discovery date, optional photo reference,
status-snapshot label, owning case) mirroring schemas.BuildingProgressBase,
with the status-snapshot column NOT NULL like its enforcement counterpart. -/
structure BuildingProgress where
  id : Nat
  case_id : Nat
  description : String
  inspector : String
  discovery_date : Nat
  photo_path : Option String
  status_snapshot : String
  created_at : Nat
deriving DecidableEq

/-- Row of the file_archives table (sqlalchemy_model.FileArchive). -/
structure FileArchive where
  id : Nat
  case_id : Nat
  enforcement_id : Option Nat
  file_name : String
  file_path : String
  file_type : String
  document_code : Option String
  uploaded_at : Nat
deriving DecidableEq

/-- Input schema schemas.ViolationCaseCreate (alias CaseCreate).  The
case_number field exists in the schema but is ignored on insert: the service
injects the generated business number instead (crud.create_violation_case's
documented contract). -/
structure ViolationCaseCreate where
  case_number : String
  status : String
  construction_unit : String
  building_type : String
  land_area : Rat
  building_area : Rat
  violation_area : Rat
  permit_status : String
  land_type : Option String
  engineering_category : Option String
  case_source : Option String
  violation_reason : Option String
  start_date : Option Nat
  discovery_date : Option Nat
  geolocation_id : Nat
deriving DecidableEq

/-- Input schema schemas.EnforcementActionCreate (alias DemolitionCreate). -/
structure EnforcementActionCreate where
  action_stage : String
  executor : String
  action_date : Nat
  status_snapshot : Option String
  case_id : Nat
deriving DecidableEq

/-- Input schema schemas.BuildingProgressCreate (alias
ViolationProgressCreate). -/
structure BuildingProgressCreate where
  description : String
  inspector : String
  discovery_date : Nat
  photo_path : Option String
  status_snapshot : Option String
  case_id : Nat
deriving DecidableEq

/-- The shared persistent store plus the ambient environment the source reads
(wall clock for the server-side timestamps, the current calendar year that
datetime.now().year yields, rendered as its four-digit string). -/
structure Store where
  locations : List Geolocation
  cases : List ViolationCase
  enforcement_actions : List EnforcementAction
  building_progresses : List BuildingProgress
  archives : List FileArchive
  next_case_id : Nat
  next_enforcement_id : Nat
  next_progress_id : Nat
  clock : Nat
  current_year : String
deriving DecidableEq

/-- Failure outcomes of the embedded operations: HTTP-surfaced errors
(not-found, the service-level 400 on the area re-check), the two pydantic
validator rejections (which carry the offending field / values instead of the
source's interpolated message strings), storage-constraint rejections and
unhandled faults. -/
inductive AppError where
  | notFound (detail : String)
  | badRequestAreaLogic
  | negativeArea (fieldName : String)
  | areaLogic (land building : Rat)
  | integrity (detail : String)
  | internalFault (detail : String)
deriving DecidableEq

/-- Does the error message the caller sees talk about the land-area versus
building-area relationship?  True exactly for the schema validator's
area-logic rejection and the service layer's 400 re-check rejection. -/
def AppError.isAreaRelation : AppError → Bool
  | .badRequestAreaLogic => true
  | .areaLogic _ _ => true
  | _ => false

/-! ## Storage layer (src/db/crud.py) -/

/-- crud.get_case: first row of the cases table with the given primary key. -/
def get_case (s : Store) (case_id : Nat) : Option ViolationCase :=
  s.cases.find? (fun c => c.id == case_id)

/-- crud.get_location (the dangling class name GeographicalLocation resolved
to the declared model Geolocation). -/
def get_location (s : Store) (location_id : Nat) : Option Geolocation :=
  s.locations.find? (fun l => l.id == location_id)

/-- crud.update_case_status: look the case up; when present overwrite its
status column (the onupdate hook refreshes updated_at) and commit; when the
id is absent do nothing and return the absent row — no error is raised. -/
def update_case_status (s : Store) (case_id : Nat) (new_status : String) :
    Store × Option ViolationCase :=
  match get_case s case_id with
  | none => (s, none)
  | some c =>
    let c' := { c with status := new_status, updated_at := s.clock }
    ({ s with cases := s.cases.map (fun x => if x.id == case_id then c' else x) },
     some c')

/-- crud.create_violation_case: instantiate the row from the schema dump with
the service-generated business number injected, add and commit.  The commit is
rejected by the storage constraints when a NOT NULL column is absent, the
geolocation foreign key dangles, or the unique business number collides; a
rejected commit leaves the store unchanged. -/
def create_violation_case (s : Store) (case : ViolationCaseCreate)
    (case_number : String) : Store × Except AppError ViolationCase :=
  match case.land_type, case.engineering_category, case.case_source with
  | some lt, some ec, some cs =>
    if (get_location s case.geolocation_id).isNone then
      (s, .error (.integrity "geolocation_id foreign key"))
    else if s.cases.any (fun x => x.case_number == case_number) then
      (s, .error (.integrity "case_number unique"))
    else
      let row : ViolationCase :=
        { id := s.next_case_id
          geolocation_id := case.geolocation_id
          case_number := case_number
          status := case.status
          construction_unit := case.construction_unit
          building_type := case.building_type
          land_area := case.land_area
          building_area := case.building_area
          violation_area := case.violation_area
          permit_status := case.permit_status
          land_type := lt
          engineering_category := ec
          case_source := cs
          violation_reason := case.violation_reason
          start_date := case.start_date
          discovery_date := case.discovery_date
          created_at := s.clock
          updated_at := s.clock }
      ({ s with cases := s.cases ++ [row], next_case_id := s.next_case_id + 1 },
       .ok row)
  | _, _, _ => (s, .error (.integrity "NOT NULL column"))

/-- crud.create_enforcement_action: instantiate the enforcement row from the
schema dump, add and commit.  The NOT NULL status_snapshot column and the
case_id foreign key are enforced at commit; a rejected commit leaves the
store unchanged. -/
def create_enforcement_action (s : Store) (action : EnforcementActionCreate) :
    Store × Except AppError EnforcementAction :=
  match action.status_snapshot with
  | none => (s, .error (.integrity "status_snapshot NOT NULL"))
  | some snap =>
    if (get_case s action.case_id).isNone then
      (s, .error (.integrity "case_id foreign key"))
    else
      let row : EnforcementAction :=
        { id := s.next_enforcement_id
          case_id := action.case_id
          action_stage := action.action_stage
          executor := action.executor
          action_date := action.action_date
          status_snapshot := snap
          is_completed := true
          created_at := s.clock }
      ({ s with enforcement_actions := s.enforcement_actions ++ [row],
                next_enforcement_id := s.next_enforcement_id + 1 },
       .ok row)

/-- crud.create_violation_action: the owner-perspective insert, identical in
shape to the enforcement one (the table itself is the spec-modelled
BuildingProgress above). -/
def create_violation_action (s : Store) (action : BuildingProgressCreate) :
    Store × Except AppError BuildingProgress :=
  match action.status_snapshot with
  | none => (s, .error (.integrity "status_snapshot NOT NULL"))
  | some snap =>
    if (get_case s action.case_id).isNone then
      (s, .error (.integrity "case_id foreign key"))
    else
      let row : BuildingProgress :=
        { id := s.next_progress_id
          case_id := action.case_id
          description := action.description
          inspector := action.inspector
          discovery_date := action.discovery_date
          photo_path := action.photo_path
          status_snapshot := snap
          created_at := s.clock }
      ({ s with building_progresses := s.building_progresses ++ [row],
                next_progress_id := s.next_progress_id + 1 },
       .ok row)

/-! ## Input validation (src/models/schemas.py, ViolationCaseBase) -/

/-- The field validator check_positive_number applied, in declaration order,
to land_area, building_area and violation_area: a negative value raises the
"area must not be negative" ValidationError naming the offending field. -/
def check_positive_number (case : ViolationCaseCreate) : Except AppError Unit :=
  if case.land_area < 0 then .error (.negativeArea "land_area")
  else if case.building_area < 0 then .error (.negativeArea "building_area")
  else if case.violation_area < 0 then .error (.negativeArea "violation_area")
  else .ok ()

/-- The model validator check_area_logic: only when both areas are positive is
the cross-field rule checked, and land_area greater than building_area is then
rejected; a zero on either side bypasses the check. -/
def check_area_logic (case : ViolationCaseCreate) : Except AppError Unit :=
  if case.land_area > 0 ∧ case.building_area > 0 then
    if case.land_area > case.building_area then
      .error (.areaLogic case.land_area case.building_area)
    else .ok ()
  else .ok ()

/-- Pydantic validation of a ViolationCaseCreate payload: the field
validators run first, then the model validator. -/
def validate_case_create (case : ViolationCaseCreate) : Except AppError Unit :=
  match check_positive_number case with
  | .error e => .error e
  | .ok _ => check_area_logic case

/-! ## Service layer (src/services/case_service.py) -/

/-- case_service.generate_case_number, its database query factored over the
list of stored business numbers: take the lexicographically greatest number
LIKE "{year}%"; if none exists the first number of the year is "{year}0001";
otherwise slice off the first four characters, parse the remainder as an
integer, add one and format it zero-padded to at least four digits behind the
year. `none` is the ValueError int() raises on a malformed suffix. -/
def next_case_number (numbers : List String) (current_year : String) :
    Option String :=
  match sqlMaxDesc (numbers.filter (fun n => likeYearPref current_year n)) with
  | none => some (current_year ++ "0001")
  | some last =>
    match parseNat (strDrop4 last) with
    | none => none
    | some n => some (current_year ++ pad4 (n + 1))

/-- case_service.generate_case_number over the store: the query scans the
case_number column, the year comes from the ambient clock. -/
def generate_case_number (s : Store) : Option String :=
  next_case_number (s.cases.map (fun c => c.case_number)) s.current_year

/-- case_service.create_case: the defensive re-check rejects with the 400
area-logic HTTPException whenever land_area exceeds building_area — with no
positivity guard, unlike the schema validator — then the business number is
generated and the row inserted. -/
def create_case (s : Store) (case_data : ViolationCaseCreate) :
    Store × Except AppError ViolationCase :=
  if case_data.land_area > case_data.building_area then
    (s, .error .badRequestAreaLogic)
  else
    match generate_case_number s with
    | none => (s, .error (.internalFault "ValueError in int()"))
    | some new_number => create_violation_case s case_data new_number

/-- The POST /api/cases/ pipeline: pydantic validates the payload, then the
service creates the case. -/
def create_case_endpoint (s : Store) (case : ViolationCaseCreate) :
    Store × Except AppError ViolationCase :=
  match validate_case_create case with
  | .error e => (s, .error e)
  | .ok _ => create_case s case

/-- case_service.add_enforcement_action: 404 when the case id dangles,
otherwise insert the enforcement record and overwrite the parent case's
status with the record's status field (status_snapshot in the revised schema
vocabulary) — the status-linkage side effect. -/
def add_enforcement_action (s : Store) (action_data : EnforcementActionCreate) :
    Store × Except AppError EnforcementAction :=
  match get_case s action_data.case_id with
  | none => (s, .error (.notFound "关联的案件不存在"))
  | some _ =>
    match create_enforcement_action s action_data with
    | (s1, .error e) => (s1, .error e)
    | (s1, .ok row) =>
      ((update_case_status s1 action_data.case_id row.status_snapshot).1, .ok row)

/-- case_service.add_violation_action: the owner-perspective append, with the
identical status-linkage side effect. -/
def add_violation_action (s : Store) (action_data : BuildingProgressCreate) :
    Store × Except AppError BuildingProgress :=
  match get_case s action_data.case_id with
  | none => (s, .error (.notFound "关联的案件不存在"))
  | some _ =>
    match create_violation_action s action_data with
    | (s1, .error e) => (s1, .error e)
    | (s1, .ok row) =>
      ((update_case_status s1 action_data.case_id row.status_snapshot).1, .ok row)

/-! ## Commit granularity of the status linkage

crud.create_enforcement_action commits the event insert on its own, and
crud.update_case_status commits the status overwrite on its own: the
successful enforcement append therefore durably commits twice.  The list
below records the store after each commit, in order; a failure striking
between the two leaves the first committed store as the surviving state. -/

/-- The successive durably-committed stores of a successful enforcement
append (empty when the operation fails before its first commit). -/
def add_enforcement_action_commits (s : Store)
    (action_data : EnforcementActionCreate) : List Store :=
  match get_case s action_data.case_id with
  | none => []
  | some _ =>
    match create_enforcement_action s action_data with
    | (_, .error _) => []
    | (s1, .ok row) =>
      [s1, (update_case_status s1 action_data.case_id row.status_snapshot).1]

/-- The state surviving a failure after the first `k` commits of the
enforcement append (the initial store when nothing committed yet). -/
def commitStateAfter (s : Store) (action_data : EnforcementActionCreate)
    (k : Nat) : Store :=
  (((add_enforcement_action_commits s action_data).take k).getLast?).getD s

/-! ## Dual-perspective event interleavings -/

/-- One progress event of either perspective, for reasoning about interleaved
append sequences. -/
inductive ProgressEvent where
  | enforcement (a : EnforcementActionCreate)
  | building (p : BuildingProgressCreate)
deriving DecidableEq

/-- The case the event belongs to. -/
def ProgressEvent.case_id : ProgressEvent → Nat
  | .enforcement a => a.case_id
  | .building p => p.case_id

/-- The status snapshot the event carries. -/
def ProgressEvent.snapshot : ProgressEvent → Option String
  | .enforcement a => a.status_snapshot
  | .building p => p.status_snapshot

/-- Append one event through the matching service operation; the flag records
whether the operation succeeded. -/
def applyEvent (s : Store) : ProgressEvent → Store × Bool
  | .enforcement a =>
    match add_enforcement_action s a with
    | (s', .ok _) => (s', true)
    | (s', .error _) => (s', false)
  | .building p =>
    match add_violation_action s p with
    | (s', .ok _) => (s', true)
    | (s', .error _) => (s', false)

/-- Run a sequence of appends in real-world order, stopping at the first
failure; the flag records that every append succeeded. -/
def runEvents (s : Store) : List ProgressEvent → Store × Bool
  | [] => (s, true)
  | e :: es =>
    match applyEvent s e with
    | (s', true) => runEvents s' es
    | (s', false) => (s', false)

/-! ## Archive compliance checker -/

/-- Modelled from the spec: the static stage-to-required-documents
configuration table (the REQUIRED_DOC_RULES the tests describe) backing the
archive checker, which is absent from src/ — only its route
(api/cases.py check_case_archive) and tests survive there.  Spec section 4.4
declares its two configured stages and their ordered document-name lists. -/
def REQUIRED_DOC_RULES : List (String × List String) :=
  [("限期拆除", ["责令停止违法行为决定书"]),
   ("强制拆除", ["强制拆除现场笔录", "强制拆除现场图片"])]

/-- The ordered document names the given stage requires; a stage absent from
the table requires nothing. -/
def requiredDocsFor (stage : String) : List String :=
  (REQUIRED_DOC_RULES.lookup stage).getD []

/-- The archive-check report (current_stage, is_compliant, missing_docs). -/
structure ArchiveCheckResult where
  current_stage : String
  is_compliant : Bool
  missing_docs : List String
deriving DecidableEq

/-- The uploaded file rows belonging to a case. -/
def archivesForCase (s : Store) (case_id : Nat) : List FileArchive :=
  s.archives.filter (fun f => f.case_id == case_id)

/-- Modelled from the spec: case_service.check_archive_status, the
read-only compliance query of spec section 4.4 — absent from src/ (the route
api/cases.py check_case_archive delegates to it and the tests exercise it).
Not-found on a dangling case id; otherwise the case's current status is the
stage, a required name is satisfied when any uploaded file name contains it
as a case-sensitive substring, missing_docs keeps the table's declared
order, and compliance is the emptiness of missing_docs. -/
def check_archive_status (s : Store) (case_id : Nat) :
    Except AppError ArchiveCheckResult :=
  match get_case s case_id with
  | none => .error (.notFound "案件不存在")
  | some c =>
    let required := requiredDocsFor c.status
    let files := archivesForCase s case_id
    let missing := required.filter
      (fun d => !(files.any (fun f => containsSub f.file_name d)))
    .ok { current_stage := c.status
          is_compliant := missing.isEmpty
          missing_docs := missing }

/-! ## Location history (src/api/cases.py, GET /api/locations/id/history) -/

/-- The brief case record of schemas.ViolationCaseBrief. -/
structure ViolationCaseBrief where
  id : Nat
  case_number : String
  status : String
  construction_unit : String
  created_at : Nat
deriving DecidableEq

/-- The response schema schemas.GeolocationRead. -/
structure GeolocationRead where
  address : String
  longitude : Rat
  latitude : Rat
  community : String
  address_number : String
  id : Nat
  created_at : Nat
  cases : List ViolationCaseBrief
deriving DecidableEq

/-- Serialization of a stored location through GeolocationRead.  The schema
reads the attribute named cases from the ORM object, but
sqlalchemy_model.Geolocation declares only the single-valued relationship
named case (uselist=False) and no cases attribute, so pydantic falls back to
the field's declared default, the empty list — independently of which cases
reference the location. -/
def geolocation_read_of (l : Geolocation) : GeolocationRead :=
  { address := l.address
    longitude := l.longitude
    latitude := l.latitude
    community := l.community
    address_number := l.address_number
    id := l.id
    created_at := l.created_at
    cases := [] }

/-- api.cases.get_location_history: 404 on a dangling location id, otherwise
the location serialized through GeolocationRead. -/
def get_location_history (s : Store) (location_id : Nat) :
    Except AppError GeolocationRead :=
  match get_location s location_id with
  | none => .error (.notFound "未找到该地理位置")
  | some l => .ok (geolocation_read_of l)

/-! ## Sequential numbering iteration

The collision-free creation sequence of a year that starts empty: each step
asks the numbering assigner for the next number and records it, exactly as
consecutive create_case calls do when nothing else writes. -/

/-- The business numbers assigned by `n` consecutive collision-free creations
into a year that starts with no cases, in creation order. -/
def iterateAssign (year : String) : Nat → List String
  | 0 => []
  | n + 1 =>
    match next_case_number (iterateAssign year n) year with
    | some num => iterateAssign year n ++ [num]
    | none => iterateAssign year n



/-! ## Concrete fixtures for the claim instantiations -/

/-- A stored location. -/
def demoLoc : Geolocation :=
  { id := 1, address := "西湖区文三路8号", longitude := 120, latitude := 30,
    community := "文三社区", address_number := "8-1", created_at := 0 }

/-- A stored case in the default initial status. -/
def demoCase : ViolationCase :=
  { id := 1, geolocation_id := 1, case_number := "20250001", status := "进行中",
    construction_unit := "张三", building_type := "存量", land_area := 10,
    building_area := 20, violation_area := 10, permit_status := "无证",
    land_type := "集体土地", engineering_category := "砖混",
    case_source := "巡查发现", violation_reason := none, start_date := none,
    discovery_date := none, created_at := 0, updated_at := 0 }

/-- A store holding one location and one open case. -/
def demoStore : Store :=
  { locations := [demoLoc], cases := [demoCase], enforcement_actions := [],
    building_progresses := [], archives := [], next_case_id := 2,
    next_enforcement_id := 1, next_progress_id := 1, clock := 5,
    current_year := "2025" }

/-- An enforcement payload that moves the demo case to the 限期拆除 stage. -/
def demoAction : EnforcementActionCreate :=
  { action_stage := "下达通知", executor := "执法大队", action_date := 3,
    status_snapshot := some "限期拆除", case_id := 1 }

/-- A building-progress payload reporting rush construction. -/
def demoProgress : BuildingProgressCreate :=
  { description := "连夜施工，墙体增高", inspector := "网格员小王",
    discovery_date := 4, photo_path := none,
    status_snapshot := some "业主抢建", case_id := 1 }

/-- The second case (for the one-location-many-cases scenario). -/
def demoCaseB : ViolationCase :=
  { id := 2, geolocation_id := 1, case_number := "20250002", status := "进行中",
    construction_unit := "李四", building_type := "新增", land_area := 20,
    building_area := 40, violation_area := 20, permit_status := "无证",
    land_type := "国有土地", engineering_category := "钢结构",
    case_source := "举报", violation_reason := none, start_date := none,
    discovery_date := none, created_at := 1, updated_at := 1 }

/-- A store in which location 1 is referenced by two cases. -/
def twoCaseStore : Store :=
  { demoStore with cases := [demoCase, demoCaseB], next_case_id := 3 }

/-- A case sitting in the 强制拆除 stage. -/
def forcedCase : ViolationCase :=
  { demoCase with status := "强制拆除" }

/-- An uploaded transcript file whose name contains 强制拆除现场笔录. -/
def transcriptFile : FileArchive :=
  { id := 1, case_id := 1, enforcement_id := none,
    file_name := "2025_强制拆除现场笔录.pdf", file_path := "/tmp/a.pdf",
    file_type := "pdf", document_code := none, uploaded_at := 2 }

/-- A store whose single case is in the 强制拆除 stage with one uploaded
transcript and no site photograph. -/
def forcedStore : Store :=
  { demoStore with cases := [forcedCase], archives := [transcriptFile] }

/-- A creation payload with positive land area and zero building area. -/
def zeroBuildingInput : ViolationCaseCreate :=
  { case_number := "TEMP", status := "进行中", construction_unit := "档案测试户",
    building_type := "存量", land_area := 100, building_area := 0,
    violation_area := 0, permit_status := "无证", land_type := some "国有土地",
    engineering_category := some "砖混", case_source := some "巡查发现",
    violation_reason := none, start_date := none, discovery_date := none,
    geolocation_id := 1 }

/-- The enforcement row the demo append persists. -/
def demoActionRow : EnforcementAction :=
  { id := 1, case_id := 1, action_stage := "下达通知", executor := "执法大队",
    action_date := 3, status_snapshot := "限期拆除", is_completed := true,
    created_at := 5 }

/-- The interleaved dual-perspective append sequence of the workflow test:
first the enforcement notice, then the owner-side rush-construction report. -/
def demoEvents : List ProgressEvent :=
  [.enforcement demoAction, .building demoProgress]

/-- A store whose only case number belongs to an earlier year. -/
def oldYearStore : Store :=
  { demoStore with cases := [{ demoCase with case_number := "20200005" }] }

/-- A store whose current year has reached sequence 9999. -/
def maxedStore : Store :=
  { demoStore with cases := [{ demoCase with case_number := "20259999" }] }

/-- Equality of operation outcomes is decidable, so concrete runs can be
checked by evaluation. -/
instance {e a : Type} [DecidableEq e] [DecidableEq a] : DecidableEq (Except e a) :=
  fun x y =>
    match x, y with
    | .ok v, .ok w => if h : v = w then .isTrue (by rw [h]) else
        .isFalse (by intro hq; cases hq; exact h rfl)
    | .error v, .error w => if h : v = w then .isTrue (by rw [h]) else
        .isFalse (by intro hq; cases hq; exact h rfl)
    | .ok _, .error _ => .isFalse (by intro hq; cases hq)
    | .error _, .ok _ => .isFalse (by intro hq; cases hq)

/-! ### Lemmas about the primitives -/

theorem charListLt_irrefl : ∀ l : List Char, charListLt l l = false
  | [] => rfl
  | a :: as => by simp [charListLt, charListLt_irrefl as]

theorem charListLt_asymm : ∀ a b : List Char,
    charListLt a b = true → charListLt b a = false
  | [], [] => by simp [charListLt]
  | [], _ :: _ => by simp [charListLt]
  | _ :: _, [] => by simp [charListLt]
  | a :: as, b :: bs => by
    simp only [charListLt]
    rcases lt_trichotomy a b with h | h | h
    · simp [h, not_lt_of_lt h]
    · subst h
      simp only [lt_irrefl, if_false]
      exact charListLt_asymm as bs
    · simp [h, not_lt_of_lt h]

theorem charListLt_append_left : ∀ p a b : List Char,
    charListLt (p ++ a) (p ++ b) = charListLt a b
  | [], _, _ => rfl
  | c :: p, a, b => by simp [charListLt, charListLt_append_left p a b]

theorem charsPref_append : ∀ p r : List Char, charsPref p (p ++ r) = true
  | [], _ => rfl
  | a :: as, r => by simp [charsPref, charsPref_append as r]

theorem sqlMaxDesc_append_dominant :
    ∀ (l : List String) (m : String),
      (∀ x ∈ l, charListLt x.data m.data = true) →
      sqlMaxDesc (l ++ [m]) = some m
  | [], m, _ => rfl
  | x :: l, m, h => by
    have hx : charListLt x.data m.data = true := h x (by simp)
    have ih := sqlMaxDesc_append_dominant l m (fun y hy => h y (by simp [hy]))
    simp only [List.cons_append, sqlMaxDesc, List.append_eq]
    rw [ih]
    simp [charListLt_asymm _ _ hx]

theorem digitChar_isDigit {d : Nat} (h : d ≤ 9) : (digitChar d).isDigit := by
  interval_cases d <;> decide

theorem digitChar_toNat {d : Nat} (h : d ≤ 9) : (digitChar d).toNat = 48 + d := by
  interval_cases d <;> decide

theorem digitChar_lt {d e : Nat} (h : d < e) (he : e ≤ 9) :
    digitChar d < digitChar e := by
  have hd : d ≤ 9 := by omega
  interval_cases d <;> interval_cases e <;> decide

theorem natToDigitsAux_small {fuel n : Nat} (hn : n < 10) (hf : 0 < fuel) :
    natToDigitsAux fuel n = [n] := by
  obtain ⟨f, rfl⟩ : ∃ f, fuel = f + 1 := ⟨fuel - 1, by omega⟩
  simp [natToDigitsAux, hn]

theorem natToDigitsAux_big {fuel n : Nat} (hn : 10 ≤ n) (hf : 0 < fuel) :
    natToDigitsAux fuel n = natToDigitsAux (fuel - 1) (n / 10) ++ [n % 10] := by
  obtain ⟨f, rfl⟩ : ∃ f, fuel = f + 1 := ⟨fuel - 1, by omega⟩
  have : ¬ n < 10 := by omega
  simp [natToDigitsAux, this]

theorem natToDigits_band1 {n : Nat} (h : n < 10) : natToDigits n = [n] :=
  natToDigitsAux_small h (by omega)

theorem natToDigits_band2 {n : Nat} (h1 : 10 ≤ n) (h2 : n < 100) :
    natToDigits n = [n / 10, n % 10] := by
  rw [natToDigits, natToDigitsAux_big h1 (by omega),
    natToDigitsAux_small (by omega : n / 10 < 10) (by omega)]
  rfl

theorem natToDigits_band3 {n : Nat} (h1 : 100 ≤ n) (h2 : n < 1000) :
    natToDigits n = [n / 100, n / 10 % 10, n % 10] := by
  rw [natToDigits, natToDigitsAux_big (by omega) (by omega),
    natToDigitsAux_big (by omega : 10 ≤ n / 10) (by omega),
    natToDigitsAux_small (by omega : n / 10 / 10 < 10) (by omega)]
  have e : n / 10 / 10 = n / 100 := by omega
  rw [e]
  rfl

theorem natToDigits_band4 {n : Nat} (h1 : 1000 ≤ n) (h2 : n < 10000) :
    natToDigits n = [n / 1000, n / 100 % 10, n / 10 % 10, n % 10] := by
  rw [natToDigits, natToDigitsAux_big (by omega) (by omega),
    natToDigitsAux_big (by omega : 10 ≤ n / 10) (by omega),
    natToDigitsAux_big (by omega : 10 ≤ n / 10 / 10) (by omega),
    natToDigitsAux_small (by omega : n / 10 / 10 / 10 < 10) (by omega)]
  have e1 : n / 10 / 10 / 10 = n / 1000 := by omega
  have e2 : n / 10 / 10 % 10 = n / 100 % 10 := by omega
  rw [e1, e2]
  rfl

theorem pad4_data {k : Nat} (hk : k ≤ 9999) :
    (pad4 k).data =
      [digitChar (k / 1000), digitChar (k / 100 % 10),
       digitChar (k / 10 % 10), digitChar (k % 10)] := by
  rcases Nat.lt_or_ge k 10 with h | h
  · have e1 : k / 1000 = 0 := by omega
    have e2 : k / 100 % 10 = 0 := by omega
    have e3 : k / 10 % 10 = 0 := by omega
    have e4 : k % 10 = k := by omega
    simp [pad4, natToDigits_band1 h, e1, e2, e3, e4, digitChar, List.replicate]
  rcases Nat.lt_or_ge k 100 with h' | h'
  · have e1 : k / 1000 = 0 := by omega
    have e2 : k / 100 % 10 = 0 := by omega
    have e3 : k / 10 % 10 = k / 10 := by omega
    simp [pad4, natToDigits_band2 h h', e1, e2, e3, digitChar, List.replicate]
  rcases Nat.lt_or_ge k 1000 with h'' | h''
  · have e1 : k / 1000 = 0 := by omega
    have e2 : k / 100 % 10 = k / 100 := by omega
    simp [pad4, natToDigits_band3 h' h'', e1, e2, digitChar, List.replicate]
  · have hk4 : k < 10000 := by omega
    simp [pad4, natToDigits_band4 h'' hk4, List.replicate]

theorem pad4_lt {i j : Nat} (hij : i < j) (hj : j ≤ 9999) :
    charListLt (pad4 i).data (pad4 j).data = true := by
  have hi : i ≤ 9999 := by omega
  rw [pad4_data hi, pad4_data hj]
  have step :
      ∀ d e : Nat, d ≤ 9 → e ≤ 9 → (rest₁ rest₂ : List Char) →
        (d = e → charListLt rest₁ rest₂ = true) →
        (d < e ∨ d = e) →
        charListLt (digitChar d :: rest₁) (digitChar e :: rest₂) = true := by
    intro d e hd he rest₁ rest₂ heq hle
    rcases hle with hlt | rfl
    · simp [charListLt, digitChar_lt hlt he]
    · simp [charListLt, heq rfl]
  have h3 : j / 1000 ≤ 9 := by omega
  have h2 : j / 100 % 10 ≤ 9 := by omega
  have h1 : j / 10 % 10 ≤ 9 := by omega
  have h0 : j % 10 ≤ 9 := by omega
  apply step _ _ (by omega) h3 _ _ _ (by omega)
  intro e3
  apply step _ _ (by omega) h2 _ _ _ (by omega)
  intro e2
  apply step _ _ (by omega) h1 _ _ _ (by omega)
  intro e1
  apply step _ _ (by omega) h0 _ _ _ (by omega)
  intro e0
  omega

theorem parseNat_pad4 {k : Nat} (hk : k ≤ 9999) : parseNat (pad4 k) = some k := by
  have h3 : k / 1000 ≤ 9 := by omega
  have h2 : k / 100 % 10 ≤ 9 := by omega
  have h1 : k / 10 % 10 ≤ 9 := by omega
  have h0 : k % 10 ≤ 9 := by omega
  have hd : (pad4 k).data =
      [digitChar (k / 1000), digitChar (k / 100 % 10),
       digitChar (k / 10 % 10), digitChar (k % 10)] := pad4_data hk
  simp only [parseNat, hd, List.isEmpty_cons, List.all_cons, List.all_nil,
    Bool.and_true, List.foldl]
  rw [if_neg (by simp)]
  rw [if_pos (by
    simp [digitChar_isDigit h3, digitChar_isDigit h2,
      digitChar_isDigit h1, digitChar_isDigit h0])]
  rw [digitChar_toNat h3, digitChar_toNat h2, digitChar_toNat h1, digitChar_toNat h0]
  congr 1
  omega

theorem pad4_one : pad4 1 = "0001" := by decide

theorem strDrop4_append {p : String} (hp : p.data.length = 4) (s : String) :
    strDrop4 (p ++ s) = s := by
  have : (p ++ s).data = p.data ++ s.data := String.data_append p s
  simp only [strDrop4, this, ← hp, List.drop_left]

theorem likeYearPref_append (p s : String) : likeYearPref p (p ++ s) = true := by
  simp only [likeYearPref, String.data_append]
  exact charsPref_append p.data s.data

/-! ## Helper lemmas about the operations -/

theorem find?_map_const_replace {α : Type} (p : α → Bool) (c' : α)
    (hc' : p c' = true) :
    ∀ (l : List α) (c : α), l.find? p = some c →
      (l.map (fun y => if p y then c' else y)).find? p = some c'
  | [], _, h => by simp [List.find?] at h
  | x :: l, c, h => by
    by_cases hx : p x = true
    · simp [List.find?_cons_of_pos _ hx, hx, List.find?_cons_of_pos _ hc']
    · have hx' : p x = false := by simpa using hx
      have hl : l.find? p = some c := by
        rwa [List.find?_cons_of_neg _ (by simp [hx'])] at h
      have hrec := find?_map_const_replace p c' hc' l c hl
      simpa [List.find?_cons_of_neg, hx'] using hrec

theorem find?_pred_of_eq_some {α : Type} (p : α → Bool) (l : List α) (c : α)
    (h : l.find? p = some c) : p c = true :=
  List.find?_some h

/-- The status overwrite replaces exactly the looked-up case row. -/
theorem get_case_after_update (s : Store) (cid : Nat) (st : String)
    (c : ViolationCase) (h : get_case s cid = some c) :
    get_case (update_case_status s cid st).1 cid =
      some { c with status := st, updated_at := s.clock } := by
  have hfind : s.cases.find? (fun x => x.id == cid) = some c := h
  have hpc0 : (fun x : ViolationCase => x.id == cid) c = true :=
    find?_pred_of_eq_some (fun x => x.id == cid) s.cases c hfind
  have hpc : (fun x : ViolationCase => x.id == cid)
      { c with status := st, updated_at := s.clock } = true := hpc0
  rw [update_case_status, h]
  exact find?_map_const_replace (fun x => x.id == cid) _ hpc s.cases c hfind

/-- Anatomy of a successful enforcement insert: it consumes the snapshot
string, appends exactly the returned row to the event log and touches
nothing else. -/
theorem create_enforcement_action_ok_spec (s : Store)
    (a : EnforcementActionCreate) (s1 : Store) (row : EnforcementAction)
    (h : create_enforcement_action s a = (s1, .ok row)) :
    a.status_snapshot = some row.status_snapshot ∧
    s1.cases = s.cases ∧ s1.clock = s.clock ∧
    s1.enforcement_actions = s.enforcement_actions ++ [row] := by
  cases hsnap : a.status_snapshot with
  | none => simp [create_enforcement_action, hsnap] at h
  | some snap =>
    by_cases hfk : (get_case s a.case_id).isNone = true
    · have heval : create_enforcement_action s a =
          (s, .error (.integrity "case_id foreign key")) := by
        simp [create_enforcement_action, hsnap, hfk]
      rw [heval] at h
      exact absurd (congrArg Prod.snd h) (by simp)
    · simp only [create_enforcement_action, hsnap] at h
      rw [if_neg hfk] at h
      injection h with h1 h2
      subst h1
      injection h2 with h2
      subst h2
      exact ⟨rfl, rfl, rfl, rfl⟩

/-- Anatomy of a successful building-progress insert, mirroring the
enforcement one. -/
theorem create_violation_action_ok_spec (s : Store)
    (p : BuildingProgressCreate) (s1 : Store) (row : BuildingProgress)
    (h : create_violation_action s p = (s1, .ok row)) :
    p.status_snapshot = some row.status_snapshot ∧
    s1.cases = s.cases ∧ s1.clock = s.clock ∧
    s1.building_progresses = s.building_progresses ++ [row] := by
  cases hsnap : p.status_snapshot with
  | none => simp [create_violation_action, hsnap] at h
  | some snap =>
    by_cases hfk : (get_case s p.case_id).isNone = true
    · have heval : create_violation_action s p =
          (s, .error (.integrity "case_id foreign key")) := by
        simp [create_violation_action, hsnap, hfk]
      rw [heval] at h
      exact absurd (congrArg Prod.snd h) (by simp)
    · simp only [create_violation_action, hsnap] at h
      rw [if_neg hfk] at h
      injection h with h1 h2
      subst h1
      injection h2 with h2
      subst h2
      exact ⟨rfl, rfl, rfl, rfl⟩

/-- Anatomy of a successful enforcement append: the parent case pre-exists,
the input carried the snapshot string the persisted row records, and the
parent case afterwards is its prior self with exactly the status overwritten
(and the update timestamp refreshed). -/
theorem add_enforcement_action_ok_spec (s : Store) (a : EnforcementActionCreate)
    (s' : Store) (r : EnforcementAction)
    (h : add_enforcement_action s a = (s', .ok r)) :
    ∃ c, get_case s a.case_id = some c ∧
      a.status_snapshot = some r.status_snapshot ∧
      s' = (update_case_status (create_enforcement_action s a).1 a.case_id
        r.status_snapshot).1 ∧
      get_case s' a.case_id =
        some { c with status := r.status_snapshot, updated_at := s.clock } := by
  cases hc : get_case s a.case_id with
  | none => simp [add_enforcement_action, hc] at h
  | some c =>
    rw [add_enforcement_action, hc] at h
    rcases hce : create_enforcement_action s a with ⟨s1, res⟩
    rw [hce] at h
    cases res with
    | error e =>
      have h' : (s1, (Except.error e : Except AppError EnforcementAction)) =
          (s', .ok r) := h
      exact absurd (congrArg Prod.snd h') (by simp)
    | ok row =>
      have h' : ((update_case_status s1 a.case_id row.status_snapshot).1,
          (Except.ok row : Except AppError EnforcementAction)) = (s', .ok r) := h
      have hs' : (update_case_status s1 a.case_id row.status_snapshot).1 = s' :=
        congrArg Prod.fst h'
      have hsnd : (Except.ok row : Except AppError EnforcementAction) = .ok r :=
        congrArg Prod.snd h'
      have hrow : row = r := Except.ok.inj hsnd
      subst hrow
      obtain ⟨hsnap, hcases, hclock, _⟩ :=
        create_enforcement_action_ok_spec s a s1 row hce
      have hc1 : get_case s1 a.case_id = some c := by
        rw [get_case, hcases]; exact hc
      refine ⟨c, rfl, hsnap, hs'.symm, ?_⟩
      rw [← hs']
      have hgc := get_case_after_update s1 a.case_id row.status_snapshot c hc1
      rwa [hclock] at hgc

/-- Anatomy of a successful building-progress append, mirroring the
enforcement one. -/
theorem add_violation_action_ok_spec (s : Store) (p : BuildingProgressCreate)
    (s' : Store) (r : BuildingProgress)
    (h : add_violation_action s p = (s', .ok r)) :
    ∃ c, get_case s p.case_id = some c ∧
      p.status_snapshot = some r.status_snapshot ∧
      get_case s' p.case_id =
        some { c with status := r.status_snapshot, updated_at := s.clock } := by
  cases hc : get_case s p.case_id with
  | none => simp [add_violation_action, hc] at h
  | some c =>
    rw [add_violation_action, hc] at h
    rcases hce : create_violation_action s p with ⟨s1, res⟩
    rw [hce] at h
    cases res with
    | error e =>
      have h' : (s1, (Except.error e : Except AppError BuildingProgress)) =
          (s', .ok r) := h
      exact absurd (congrArg Prod.snd h') (by simp)
    | ok row =>
      have h' : ((update_case_status s1 p.case_id row.status_snapshot).1,
          (Except.ok row : Except AppError BuildingProgress)) = (s', .ok r) := h
      have hs' : (update_case_status s1 p.case_id row.status_snapshot).1 = s' :=
        congrArg Prod.fst h'
      have hsnd : (Except.ok row : Except AppError BuildingProgress) = .ok r :=
        congrArg Prod.snd h'
      have hrow : row = r := Except.ok.inj hsnd
      subst hrow
      obtain ⟨hsnap, hcases, hclock, _⟩ :=
        create_violation_action_ok_spec s p s1 row hce
      have hc1 : get_case s1 p.case_id = some c := by
        rw [get_case, hcases]; exact hc
      refine ⟨c, rfl, hsnap, ?_⟩
      rw [← hs']
      have hgc := get_case_after_update s1 p.case_id row.status_snapshot c hc1
      rwa [hclock] at hgc

/-! ## Claim C10 -/

/-- C10: updating a case's status through the storage layer with an id that
references no existing case is a silent no-op — crud.update_case_status
raises nothing, writes nothing (the returned store is the argument store) and
returns the absent row instead of a not-found failure. -/
theorem update_case_status_missing_id_noop (s : Store) (case_id : Nat)
    (new_status : String) (h : get_case s case_id = none) :
    update_case_status s case_id new_status = (s, none) := by
  rw [update_case_status, h]

/-- Witness for C10 at a concrete store and a dangling id. -/
theorem update_case_status_missing_id_noop_witness :
    get_case demoStore 999999 = none ∧
    update_case_status demoStore 999999 "结案" = (demoStore, none) :=
  ⟨by decide,
   update_case_status_missing_id_noop demoStore 999999 "结案" (by decide)⟩

/-! ## Claim C6 -/

/-- C6: appending a progress event of either perspective against a case id
that references no existing case fails with the not-found error and returns
the untouched store: no event row is persisted and no case's status has
changed. -/
theorem append_to_missing_case_fails_clean (s : Store)
    (a : EnforcementActionCreate) (p : BuildingProgressCreate)
    (ha : get_case s a.case_id = none) (hp : get_case s p.case_id = none) :
    add_enforcement_action s a = (s, .error (.notFound "关联的案件不存在")) ∧
    add_violation_action s p = (s, .error (.notFound "关联的案件不存在")) := by
  constructor
  · rw [add_enforcement_action, ha]
  · rw [add_violation_action, hp]

/-- Witness for C6 at a concrete store and dangling payloads. -/
theorem append_to_missing_case_fails_clean_witness :
    get_case demoStore 999999 = none ∧
    (add_enforcement_action demoStore { demoAction with case_id := 999999 } =
      (demoStore, .error (.notFound "关联的案件不存在")) ∧
     add_violation_action demoStore { demoProgress with case_id := 999999 } =
      (demoStore, .error (.notFound "关联的案件不存在"))) :=
  ⟨by decide,
   append_to_missing_case_fails_clean demoStore
     { demoAction with case_id := 999999 }
     { demoProgress with case_id := 999999 } (by decide) (by decide)⟩

/-! ## Claim C5 -/

/-- C5: the compliance check on an existing case whose current status label is
absent from the static stage-to-required-documents table reports
is_compliant true and an empty missing_docs sequence, whatever files were
uploaded.  (spec-modelled checker, see check_archive_status.) -/
theorem archive_check_unconfigured_stage_compliant (s : Store) (case_id : Nat)
    (c : ViolationCase) (hc : get_case s case_id = some c)
    (hs : REQUIRED_DOC_RULES.lookup c.status = none) :
    check_archive_status s case_id =
      .ok { current_stage := c.status, is_compliant := true,
            missing_docs := [] } := by
  rw [check_archive_status, hc]
  simp [requiredDocsFor, hs]

/-- Witness for C5: the demo case's 进行中 status has no configured rule, and
the check is vacuously compliant. -/
theorem archive_check_unconfigured_stage_compliant_witness :
    get_case demoStore 1 = some demoCase ∧
    REQUIRED_DOC_RULES.lookup demoCase.status = none ∧
    check_archive_status demoStore 1 =
      .ok { current_stage := "进行中", is_compliant := true,
            missing_docs := [] } :=
  ⟨by decide, by decide,
   archive_check_unconfigured_stage_compliant demoStore 1 demoCase
     (by decide) (by decide)⟩

/-! ## Claim C8 (code bug) -/

/-- C8 fails on the code: serializing the location-history response reads the
cases attribute, which the ORM location model does not define (it declares
the single-valued relationship case, uselist=False), so the response's cases
list is always the schema default, the empty list.  At the failing input —
location 1 referenced by two cases, the scenario the repository's own
workflow test asserts returns both brief records — the history response
carries no case at all. -/
theorem location_history_two_cases_empty_response :
    (twoCaseStore.cases.filter (fun c => c.geolocation_id == 1)).length = 2 ∧
    get_location_history twoCaseStore 1 =
      .ok { address := "西湖区文三路8号", longitude := 120, latitude := 30,
            community := "文三社区", address_number := "8-1", id := 1,
            created_at := 0, cases := [] } ∧
    (∀ l : Geolocation, (geolocation_read_of l).cases = []) := by
  refine ⟨by decide, by decide, fun l => rfl⟩

/-! ## Claim C4 -/

/-- C4: for an existing case, the compliance check reports the case's status
as the current stage; a required name is missing exactly when no uploaded
file of the case has a file_name containing it as a case-sensitive substring;
missing_docs is a subsequence of the configuration table's declared order;
and compliance holds exactly when nothing is missing.  (spec-modelled
checker, see check_archive_status.) -/
theorem archive_check_substring_rule (s : Store) (case_id : Nat)
    (c : ViolationCase) (hc : get_case s case_id = some c) :
    ∃ r, check_archive_status s case_id = .ok r ∧
      r.current_stage = c.status ∧
      (∀ d, d ∈ r.missing_docs ↔ d ∈ requiredDocsFor c.status ∧
        ∀ f ∈ archivesForCase s case_id, containsSub f.file_name d = false) ∧
      List.Sublist r.missing_docs (requiredDocsFor c.status) ∧
      (r.is_compliant = true ↔ r.missing_docs = []) := by
  rw [check_archive_status, hc]
  refine ⟨_, rfl, rfl, ?_, List.filter_sublist _, List.isEmpty_iff⟩
  intro d
  simp only [List.mem_filter, Bool.not_eq_true', List.any_eq_false,
    Bool.not_eq_true]

/-- Witness for C4: the 强制拆除 case with an uploaded transcript but no site
photograph is missing exactly the photograph requirement. -/
theorem archive_check_substring_rule_witness :
    get_case forcedStore 1 = some forcedCase ∧
    check_archive_status forcedStore 1 =
      .ok { current_stage := "强制拆除", is_compliant := false,
            missing_docs := ["强制拆除现场图片"] } ∧
    (∃ r, check_archive_status forcedStore 1 = .ok r ∧
      r.current_stage = forcedCase.status ∧
      (∀ d, d ∈ r.missing_docs ↔ d ∈ requiredDocsFor forcedCase.status ∧
        ∀ f ∈ archivesForCase forcedStore 1, containsSub f.file_name d = false) ∧
      List.Sublist r.missing_docs (requiredDocsFor forcedCase.status) ∧
      (r.is_compliant = true ↔ r.missing_docs = [])) :=
  ⟨by decide, by decide,
   archive_check_substring_rule forcedStore 1 forcedCase (by decide)⟩

/-! ## Claim C3 (corrected) -/

/-- C3 as stated fails on the code: the input land_area 100, building_area 0
passes the guarded schema validator (zero bypasses the cross-field check),
but case creation nevertheless rejects it — the service-layer re-check fires
on any land_area greater than building_area, so the claimed success of this
input, and the claimed equivalence of the two checks, are both false. -/
theorem create_case_zero_area_counterexample :
    ¬ (zeroBuildingInput.land_area > 0 ∧ zeroBuildingInput.building_area > 0 ∧
       zeroBuildingInput.land_area > zeroBuildingInput.building_area) ∧
    validate_case_create zeroBuildingInput = .ok () ∧
    create_case_endpoint demoStore zeroBuildingInput =
      (demoStore, .error .badRequestAreaLogic) ∧
    AppError.badRequestAreaLogic.isAreaRelation = true := by decide

/-- No insert-layer rejection talks about the area relationship. -/
theorem create_violation_case_error_not_area (s : Store)
    (c : ViolationCaseCreate) (num : String) (e : AppError)
    (h : (create_violation_case s c num).2 = .error e) :
    e.isAreaRelation = false := by
  rw [create_violation_case] at h
  split at h
  · split at h
    · cases h
      rfl
    · split at h
      · cases h
        rfl
      · cases h
  · cases h
    rfl

/-- C3 amended: the schema validator alone implements the guarded rule —
it rejects with an area-relationship failure exactly when both areas are
positive and land exceeds building — but the pre-persistence re-check in
create_case fires on any land_area greater than building_area with no
zero-value bypass, so creation as a whole rejects with an area-relationship
failure exactly when land_area exceeds building_area: land 100 with building
0 is rejected, and the two checks are not identical (the service one is
strictly stronger). -/
theorem create_case_area_rejection_amended (s : Store) (c : ViolationCaseCreate)
    (h1 : 0 ≤ c.land_area) (h2 : 0 ≤ c.building_area)
    (h3 : 0 ≤ c.violation_area) :
    ((∃ e, check_area_logic c = .error e ∧ e.isAreaRelation = true) ↔
      (0 < c.land_area ∧ 0 < c.building_area ∧ c.building_area < c.land_area)) ∧
    ((∃ e, (create_case_endpoint s c).2 = .error e ∧ e.isAreaRelation = true) ↔
      c.building_area < c.land_area) := by
  have hpos : check_positive_number c = .ok () := by
    rw [check_positive_number, if_neg (not_lt.mpr h1), if_neg (not_lt.mpr h2),
      if_neg (not_lt.mpr h3)]
  have hval : validate_case_create c = check_area_logic c := by
    rw [validate_case_create, hpos]
  constructor
  · by_cases hg : c.land_area > 0 ∧ c.building_area > 0
    · by_cases hlt : c.land_area > c.building_area
      · rw [check_area_logic, if_pos hg, if_pos hlt]
        constructor
        · intro _
          exact ⟨hg.1, hg.2, hlt⟩
        · intro _
          exact ⟨_, rfl, rfl⟩
      · rw [check_area_logic, if_pos hg, if_neg hlt]
        constructor
        · rintro ⟨e, he, -⟩
          exact absurd he (by simp)
        · rintro ⟨-, -, hq⟩
          exact absurd hq hlt
    · rw [check_area_logic, if_neg hg]
      constructor
      · rintro ⟨e, he, -⟩
        exact absurd he (by simp)
      · rintro ⟨ha, hb, -⟩
        exact (hg ⟨ha, hb⟩).elim
  · rw [create_case_endpoint, hval]
    by_cases hlt : c.land_area > c.building_area
    · rw [iff_true_right hlt]
      by_cases hb : 0 < c.building_area
      · have hca : check_area_logic c =
            .error (.areaLogic c.land_area c.building_area) := by
          rw [check_area_logic, if_pos ⟨lt_trans hb hlt, hb⟩, if_pos hlt]
        rw [hca]
        exact ⟨.areaLogic c.land_area c.building_area, rfl, rfl⟩
      · have hg : ¬ (c.land_area > 0 ∧ c.building_area > 0) :=
          fun hq => hb hq.2
        have hca : check_area_logic c = .ok () := by
          rw [check_area_logic, if_neg hg]
        rw [hca, create_case, if_pos hlt]
        exact ⟨.badRequestAreaLogic, rfl, rfl⟩
    · have hca : check_area_logic c = .ok () := by
        by_cases hg : c.land_area > 0 ∧ c.building_area > 0
        · rw [check_area_logic, if_pos hg, if_neg hlt]
        · rw [check_area_logic, if_neg hg]
      rw [hca, create_case, if_neg hlt]
      constructor
      · rintro ⟨e, he, har⟩
        exfalso
        cases hgen : generate_case_number s with
        | none =>
          rw [hgen] at he
          have he' : (Except.error (AppError.internalFault "ValueError in int()") :
              Except AppError ViolationCase) = .error e := he
          have := Except.error.inj he'
          rw [← this] at har
          exact absurd har (by decide)
        | some num =>
          rw [hgen] at he
          have he' : (create_violation_case s c num).2 = .error e := he
          have := create_violation_case_error_not_area s c num e he'
          rw [this] at har
          exact absurd har (by decide)
      · intro hq
        exact absurd hq hlt

/-- Witness for the amended C3 at the concrete zero-building input: the
validator accepts it while the whole creation pipeline rejects it with the
area-relationship failure. -/
theorem create_case_area_rejection_amended_witness :
    (0 : Rat) ≤ 100 ∧
    ¬ (∃ e, check_area_logic zeroBuildingInput = .error e ∧
        e.isAreaRelation = true) ∧
    (∃ e, (create_case_endpoint demoStore zeroBuildingInput).2 = .error e ∧
        e.isAreaRelation = true) := by
  have h := create_case_area_rejection_amended demoStore zeroBuildingInput
    (by decide) (by decide) (by decide)
  refine ⟨by decide, ?_, ?_⟩
  · intro hq
    have := h.1.mp hq
    exact absurd this.2.1 (by decide)
  · exact h.2.mpr (by decide)

/-! ## Claim C9 -/

/-- C9: a successful append of a progress event from either perspective
changes nothing of the parent case except its status (and the update
timestamp that accompanies any status change): id, location reference,
business number, party, category, the three areas, permit status, land type,
engineering category, case source, violation reason, both dates and the
creation time all keep their prior values. -/
theorem append_frame_only_status (s : Store)
    (a : EnforcementActionCreate) (p : BuildingProgressCreate)
    (sa sp : Store) (ra : EnforcementAction) (rp : BuildingProgress)
    (ca cp : ViolationCase)
    (hra : add_enforcement_action s a = (sa, .ok ra))
    (hca : get_case s a.case_id = some ca)
    (hrp : add_violation_action s p = (sp, .ok rp))
    (hcp : get_case s p.case_id = some cp) :
    (∃ ca', get_case sa a.case_id = some ca' ∧
      ca'.id = ca.id ∧ ca'.geolocation_id = ca.geolocation_id ∧
      ca'.case_number = ca.case_number ∧
      ca'.construction_unit = ca.construction_unit ∧
      ca'.building_type = ca.building_type ∧ ca'.land_area = ca.land_area ∧
      ca'.building_area = ca.building_area ∧
      ca'.violation_area = ca.violation_area ∧
      ca'.permit_status = ca.permit_status ∧ ca'.land_type = ca.land_type ∧
      ca'.engineering_category = ca.engineering_category ∧
      ca'.case_source = ca.case_source ∧
      ca'.violation_reason = ca.violation_reason ∧
      ca'.start_date = ca.start_date ∧
      ca'.discovery_date = ca.discovery_date ∧
      ca'.created_at = ca.created_at) ∧
    (∃ cp', get_case sp p.case_id = some cp' ∧
      cp'.id = cp.id ∧ cp'.geolocation_id = cp.geolocation_id ∧
      cp'.case_number = cp.case_number ∧
      cp'.construction_unit = cp.construction_unit ∧
      cp'.building_type = cp.building_type ∧ cp'.land_area = cp.land_area ∧
      cp'.building_area = cp.building_area ∧
      cp'.violation_area = cp.violation_area ∧
      cp'.permit_status = cp.permit_status ∧ cp'.land_type = cp.land_type ∧
      cp'.engineering_category = cp.engineering_category ∧
      cp'.case_source = cp.case_source ∧
      cp'.violation_reason = cp.violation_reason ∧
      cp'.start_date = cp.start_date ∧
      cp'.discovery_date = cp.discovery_date ∧
      cp'.created_at = cp.created_at) := by
  constructor
  · obtain ⟨c0, hc0, -, -, hafter⟩ := add_enforcement_action_ok_spec s a sa ra hra
    rw [hca] at hc0
    obtain rfl : c0 = ca := (Option.some.inj hc0).symm
    exact ⟨_, hafter, rfl, rfl, rfl, rfl, rfl, rfl, rfl, rfl, rfl, rfl, rfl,
      rfl, rfl, rfl, rfl, rfl⟩
  · obtain ⟨c0, hc0, -, hafter⟩ := add_violation_action_ok_spec s p sp rp hrp
    rw [hcp] at hc0
    obtain rfl : c0 = cp := (Option.some.inj hc0).symm
    exact ⟨_, hafter, rfl, rfl, rfl, rfl, rfl, rfl, rfl, rfl, rfl, rfl, rfl,
      rfl, rfl, rfl, rfl, rfl⟩

/-- Witness for C9 at the demo store and the two demo payloads. -/
theorem append_frame_only_status_witness :
    (∃ ca', get_case (add_enforcement_action demoStore demoAction).1 1 =
        some ca' ∧
      ca'.id = demoCase.id ∧ ca'.geolocation_id = demoCase.geolocation_id ∧
      ca'.case_number = demoCase.case_number ∧
      ca'.construction_unit = demoCase.construction_unit ∧
      ca'.building_type = demoCase.building_type ∧
      ca'.land_area = demoCase.land_area ∧
      ca'.building_area = demoCase.building_area ∧
      ca'.violation_area = demoCase.violation_area ∧
      ca'.permit_status = demoCase.permit_status ∧
      ca'.land_type = demoCase.land_type ∧
      ca'.engineering_category = demoCase.engineering_category ∧
      ca'.case_source = demoCase.case_source ∧
      ca'.violation_reason = demoCase.violation_reason ∧
      ca'.start_date = demoCase.start_date ∧
      ca'.discovery_date = demoCase.discovery_date ∧
      ca'.created_at = demoCase.created_at) ∧
    (∃ cp', get_case (add_violation_action demoStore demoProgress).1 1 =
        some cp' ∧
      cp'.id = demoCase.id ∧ cp'.geolocation_id = demoCase.geolocation_id ∧
      cp'.case_number = demoCase.case_number ∧
      cp'.construction_unit = demoCase.construction_unit ∧
      cp'.building_type = demoCase.building_type ∧
      cp'.land_area = demoCase.land_area ∧
      cp'.building_area = demoCase.building_area ∧
      cp'.violation_area = demoCase.violation_area ∧
      cp'.permit_status = demoCase.permit_status ∧
      cp'.land_type = demoCase.land_type ∧
      cp'.engineering_category = demoCase.engineering_category ∧
      cp'.case_source = demoCase.case_source ∧
      cp'.violation_reason = demoCase.violation_reason ∧
      cp'.start_date = demoCase.start_date ∧
      cp'.discovery_date = demoCase.discovery_date ∧
      cp'.created_at = demoCase.created_at) :=
  append_frame_only_status demoStore demoAction demoProgress
    (add_enforcement_action demoStore demoAction).1
    (add_violation_action demoStore demoProgress).1
    demoActionRow
    { id := 1, case_id := 1, description := "连夜施工，墙体增高",
      inspector := "网格员小王", discovery_date := 4, photo_path := none,
      status_snapshot := "业主抢建", created_at := 5 }
    demoCase demoCase (by decide) (by decide) (by decide) (by decide)

/-! ## Claim C1 -/

/-- A successful append through either perspective leaves the parent case
carrying exactly the appended event's snapshot as its status. -/
theorem applyEvent_success_status (s s' : Store) (e : ProgressEvent)
    (h : applyEvent s e = (s', true)) :
    ∃ c', get_case s' e.case_id = some c' ∧ e.snapshot = some c'.status := by
  cases e with
  | enforcement a =>
    rcases ha : add_enforcement_action s a with ⟨s1, res⟩
    rw [applyEvent, ha] at h
    cases res with
    | error e0 =>
      have h' : (s1, false) = (s', true) := h
      exact absurd (congrArg Prod.snd h') (by simp)
    | ok r =>
      have h' : (s1, true) = (s', true) := h
      obtain rfl : s1 = s' := congrArg Prod.fst h'
      obtain ⟨c, -, hsnap, -, hafter⟩ :=
        add_enforcement_action_ok_spec s a s1 r ha
      exact ⟨_, hafter, hsnap⟩
  | building p =>
    rcases ha : add_violation_action s p with ⟨s1, res⟩
    rw [applyEvent, ha] at h
    cases res with
    | error e0 =>
      have h' : (s1, false) = (s', true) := h
      exact absurd (congrArg Prod.snd h') (by simp)
    | ok r =>
      have h' : (s1, true) = (s', true) := h
      obtain rfl : s1 = s' := congrArg Prod.fst h'
      obtain ⟨c, -, hsnap, hafter⟩ := add_violation_action_ok_spec s p s1 r ha
      exact ⟨_, hafter, hsnap⟩

/-- After a fully successful interleaved sequence of appends against one
case, the case's status carries the snapshot of the last appended event. -/
theorem runEvents_last_status (cid : Nat) :
    ∀ (es : List ProgressEvent) (s s' : Store) (e : ProgressEvent),
      runEvents s es = (s', true) →
      (∀ x ∈ es, ProgressEvent.case_id x = cid) →
      es.getLast? = some e →
      ∃ c', get_case s' cid = some c' ∧
        ProgressEvent.snapshot e = some c'.status
  | [], s, s', e, hrun, _, hlast => by simp at hlast
  | e0 :: es, s, s', e, hrun, hcid, hlast => by
    rcases hap : applyEvent s e0 with ⟨s1, b⟩
    rw [runEvents, hap] at hrun
    cases b with
    | false =>
      have h' : (s1, false) = (s', true) := hrun
      exact absurd (congrArg Prod.snd h') (by simp)
    | true =>
      have hrun' : runEvents s1 es = (s', true) := hrun
      cases es with
      | nil =>
        have h' : (s1, true) = (s', true) := hrun'
        obtain rfl : s1 = s' := congrArg Prod.fst h'
        obtain rfl : e0 = e := by simpa using hlast
        obtain ⟨c', h1, h2⟩ := applyEvent_success_status s s1 e0 hap
        rw [hcid e0 (by simp)] at h1
        exact ⟨c', h1, h2⟩
      | cons e1 es' =>
        have hlast' : (e1 :: es').getLast? = some e := by
          simpa using hlast
        exact runEvents_last_status cid (e1 :: es') s1 s' e hrun'
          (fun x hx => hcid x (by simp [hx])) hlast'

/-- C1: a successful append of a progress event — enforcement action or
building-progress observation — overwrites the parent case's status with the
event's status_snapshot string verbatim, whatever string it is (no vocabulary
check); and after any fully successful interleaved sequence of appends from
both perspectives against one case, the case's status equals the
status_snapshot of the most recently appended event (last writer wins). -/
theorem status_linkage_last_writer_wins :
    (∀ (s : Store) (a : EnforcementActionCreate) (s' : Store)
        (r : EnforcementAction),
      add_enforcement_action s a = (s', .ok r) →
      ∃ c', get_case s' a.case_id = some c' ∧
        a.status_snapshot = some c'.status) ∧
    (∀ (s : Store) (p : BuildingProgressCreate) (s' : Store)
        (r : BuildingProgress),
      add_violation_action s p = (s', .ok r) →
      ∃ c', get_case s' p.case_id = some c' ∧
        p.status_snapshot = some c'.status) ∧
    (∀ (cid : Nat) (es : List ProgressEvent) (s s' : Store)
        (e : ProgressEvent),
      runEvents s es = (s', true) →
      (∀ x ∈ es, ProgressEvent.case_id x = cid) →
      es.getLast? = some e →
      ∃ c', get_case s' cid = some c' ∧
        ProgressEvent.snapshot e = some c'.status) := by
  refine ⟨?_, ?_, fun cid es s s' e h1 h2 h3 =>
    runEvents_last_status cid es s s' e h1 h2 h3⟩
  · intro s a s' r h
    obtain ⟨c, -, hsnap, -, hafter⟩ := add_enforcement_action_ok_spec s a s' r h
    exact ⟨_, hafter, hsnap⟩
  · intro s p s' r h
    obtain ⟨c, -, hsnap, hafter⟩ := add_violation_action_ok_spec s p s' r h
    exact ⟨_, hafter, hsnap⟩

/-- Witness for C1: running the workflow test's interleaving — enforcement
notice then owner-side rush construction — against the demo store leaves the
case in the owner event's snapshot status 业主抢建. -/
theorem status_linkage_last_writer_wins_witness :
    (∃ c', get_case (runEvents demoStore demoEvents).1 1 = some c' ∧
      ProgressEvent.snapshot (ProgressEvent.building demoProgress) =
        some c'.status) ∧
    ((runEvents demoStore demoEvents).1.cases.map (fun c => c.status)) =
      ["业主抢建"] :=
  ⟨status_linkage_last_writer_wins.2.2 1 demoEvents demoStore
    (runEvents demoStore demoEvents).1 (.building demoProgress)
    (by decide) (by decide) (by decide),
   by decide⟩

/-! ## Claim C7 (corrected) -/

/-- C7 as stated is false on the code: the enforcement append durably commits
twice — crud.create_enforcement_action commits the event insert on its own
before crud.update_case_status commits the status overwrite — so a failure
striking between the two commits leaves exactly the partial state the claim
rules out.  Concretely, after the first commit of the demo append the event
row is already persisted while the case still carries its old 进行中 status,
even though the appended event's snapshot is 限期拆除 and the completed append
would have applied it. -/
theorem status_linkage_interrupted_commit_counterexample :
    add_enforcement_action_commits demoStore demoAction ≠ [] ∧
    (commitStateAfter demoStore demoAction 1).enforcement_actions =
      [demoActionRow] ∧
    ((commitStateAfter demoStore demoAction 1).cases.map (fun c => c.status)) =
      ["进行中"] ∧
    demoAction.status_snapshot = some "限期拆除" ∧
    ((add_enforcement_action demoStore demoAction).1.cases.map
      (fun c => c.status)) = ["限期拆除"] := by decide

/-- C7 amended: each single storage write commits atomically on its own, but
the status-linkage pair is two units of work committed in sequence, not one:
a successful enforcement append commits exactly twice, the event row is
already durable after the first commit while the parent case is still
byte-for-byte its old self, and only the second commit overwrites the
status. -/
theorem status_linkage_two_commit_units (s : Store)
    (a : EnforcementActionCreate) (s' : Store) (r : EnforcementAction)
    (c : ViolationCase)
    (h : add_enforcement_action s a = (s', .ok r))
    (hc : get_case s a.case_id = some c) :
    add_enforcement_action_commits s a =
      [(create_enforcement_action s a).1, s'] ∧
    (create_enforcement_action s a).1.enforcement_actions =
      s.enforcement_actions ++ [r] ∧
    get_case (create_enforcement_action s a).1 a.case_id = some c ∧
    get_case s' a.case_id =
      some { c with status := r.status_snapshot, updated_at := s.clock } := by
  obtain ⟨c0, hc0, -, -, hafter⟩ := add_enforcement_action_ok_spec s a s' r h
  rw [hc] at hc0
  obtain rfl : c = c0 := Option.some.inj hc0
  have h2 := h
  rw [add_enforcement_action, hc] at h2
  rcases hce : create_enforcement_action s a with ⟨s1, res⟩
  rw [hce] at h2
  cases res with
  | error e =>
    have h' : (s1, (Except.error e : Except AppError EnforcementAction)) =
        (s', .ok r) := h2
    exact absurd (congrArg Prod.snd h') (by simp)
  | ok row =>
    have h' : ((update_case_status s1 a.case_id row.status_snapshot).1,
        (Except.ok row : Except AppError EnforcementAction)) = (s', .ok r) := h2
    have hrow : row = r := Except.ok.inj (congrArg Prod.snd h')
    subst hrow
    have hs1 : (update_case_status s1 a.case_id row.status_snapshot).1 = s' :=
      congrArg Prod.fst h'
    obtain ⟨-, hcases, -, hacts⟩ :=
      create_enforcement_action_ok_spec s a s1 row hce
    refine ⟨?_, hacts, ?_, hafter⟩
    · have hcommits : add_enforcement_action_commits s a =
          [s1, (update_case_status s1 a.case_id row.status_snapshot).1] := by
        rw [add_enforcement_action_commits, hc, hce]
      rw [hcommits, hs1]
    · show get_case s1 a.case_id = some c
      rw [get_case, hcases]
      exact hc

/-- Witness for the amended C7 at the demo store and payload. -/
theorem status_linkage_two_commit_units_witness :
    add_enforcement_action_commits demoStore demoAction =
      [(create_enforcement_action demoStore demoAction).1,
       (add_enforcement_action demoStore demoAction).1] ∧
    (create_enforcement_action demoStore demoAction).1.enforcement_actions =
      demoStore.enforcement_actions ++ [demoActionRow] ∧
    get_case (create_enforcement_action demoStore demoAction).1
      demoAction.case_id = some demoCase ∧
    get_case (add_enforcement_action demoStore demoAction).1
      demoAction.case_id =
      some { demoCase with status := "限期拆除", updated_at := 5 } :=
  status_linkage_two_commit_units demoStore demoAction
    (add_enforcement_action demoStore demoAction).1 demoActionRow demoCase
    (by decide) (by decide)


/-! ## Claim C2 -/

/-- The year's first number: with no stored number of the current year the
generator returns year ++ 0001. -/
theorem next_case_number_of_empty (numbers : List String) (year : String)
    (h : numbers.filter (fun x => likeYearPref year x) = []) :
    next_case_number numbers year = some (year ++ "0001") := by
  rw [next_case_number, h]
  rfl

/-- The generic step: the generator parses the digits after the year prefix
of the lexicographic maximum, increments and re-pads. -/
theorem next_case_number_of_max (numbers : List String) (year m : String)
    (n : Nat)
    (h1 : sqlMaxDesc (numbers.filter (fun x => likeYearPref year x)) = some m)
    (h2 : parseNat (strDrop4 m) = some n) :
    next_case_number numbers year = some (year ++ pad4 (n + 1)) := by
  rw [next_case_number, h1]
  show (match parseNat (strDrop4 m) with
    | none => none
    | some k => some (year ++ pad4 (k + 1))) = _
  rw [h2]

/-- The numbering step on a year whose numbers so far are exactly the padded
sequence 1..N: the next assigned number is the padded N+1 behind the year. -/
theorem next_case_number_step (year : String) (hy : year.data.length = 4)
    (N : Nat) (hN : N + 1 ≤ 9999) :
    next_case_number ((List.range N).map (fun i => year ++ pad4 (i + 1))) year
      = some (year ++ pad4 (N + 1)) := by
  have hfil : ((List.range N).map (fun i => year ++ pad4 (i + 1))).filter
      (fun x => likeYearPref year x)
      = (List.range N).map (fun i => year ++ pad4 (i + 1)) := by
    apply List.filter_eq_self.mpr
    intro x hx
    obtain ⟨i, -, rfl⟩ := List.mem_map.mp hx
    exact likeYearPref_append year (pad4 (i + 1))
  cases N with
  | zero =>
    have h0 := next_case_number_of_empty
      ((List.range 0).map (fun i => year ++ pad4 (i + 1))) year (by simp)
    rw [h0, pad4_one]
  | succ M =>
    have hsplit : (List.range (M + 1)).map (fun i => year ++ pad4 (i + 1))
        = (List.range M).map (fun i => year ++ pad4 (i + 1))
          ++ [year ++ pad4 (M + 1)] := by
      rw [List.range_succ, List.map_append]
      rfl
    have hmax : sqlMaxDesc
        (((List.range (M + 1)).map (fun i => year ++ pad4 (i + 1))).filter
          (fun x => likeYearPref year x))
        = some (year ++ pad4 (M + 1)) := by
      rw [hfil, hsplit]
      apply sqlMaxDesc_append_dominant
      intro x hx
      obtain ⟨i, hi, rfl⟩ := List.mem_map.mp hx
      have hiM : i < M := List.mem_range.mp hi
      rw [String.data_append, String.data_append, charListLt_append_left]
      exact pad4_lt (by omega) (by omega)
    have h2 : parseNat (strDrop4 (year ++ pad4 (M + 1))) = some (M + 1) := by
      rw [strDrop4_append hy]
      exact parseNat_pad4 (by omega)
    exact next_case_number_of_max _ year _ (M + 1) hmax h2

/-- The padded-sequence characterization of collision-free creation within a
year that starts empty. -/
theorem iterateAssign_eq (year : String) (hy : year.data.length = 4) :
    ∀ N, N ≤ 9999 →
      iterateAssign year N = (List.range N).map (fun i => year ++ pad4 (i + 1))
  | 0, _ => rfl
  | N + 1, hN => by
    have ih := iterateAssign_eq year hy N (by omega)
    rw [iterateAssign, ih, next_case_number_step year hy N hN]
    rw [List.range_succ, List.map_append]
    rfl

/-- A successfully inserted case row carries exactly the injected business
number. -/
theorem create_violation_case_ok_number (s : Store) (c : ViolationCaseCreate)
    (num : String) (s' : Store) (row : ViolationCase)
    (h : create_violation_case s c num = (s', .ok row)) :
    row.case_number = num := by
  rw [create_violation_case] at h
  split at h
  · split at h
    · exact absurd (congrArg Prod.snd h) (by simp)
    · split at h
      · exact absurd (congrArg Prod.snd h) (by simp)
      · have hrow := Except.ok.inj (congrArg Prod.snd h)
        rw [← hrow]
  · exact absurd (congrArg Prod.snd h) (by simp)

/-- C2: next-case-number generation returns year ++ 0001 on a store with no
case number of the current year; otherwise it takes the lexicographic
maximum of the year's numbers, parses the digits after the year prefix,
increments and re-pads to at least four digits behind the year; a sequence of
N collision-free creations in an empty year therefore assigns the padded
numbers 0001..N in creation order (for any N up to 9999), a year maxed out at
9999 rolls over to the five-digit 10000 without error, and a successful
creation persists exactly the generated number. -/
theorem case_number_generation_spec :
    (∀ s : Store,
      (∀ c ∈ s.cases, likeYearPref s.current_year c.case_number = false) →
      generate_case_number s = some (s.current_year ++ "0001")) ∧
    (∀ (s : Store) (m : String) (n : Nat),
      sqlMaxDesc ((s.cases.map (fun c => c.case_number)).filter
        (fun x => likeYearPref s.current_year x)) = some m →
      parseNat (strDrop4 m) = some n →
      generate_case_number s = some (s.current_year ++ pad4 (n + 1))) ∧
    (∀ year : String, year.data.length = 4 → ∀ N, N ≤ 9999 →
      iterateAssign year N =
        (List.range N).map (fun i => year ++ pad4 (i + 1))) ∧
    (∀ s : Store, s.current_year.data.length = 4 →
      sqlMaxDesc ((s.cases.map (fun c => c.case_number)).filter
        (fun x => likeYearPref s.current_year x))
        = some (s.current_year ++ "9999") →
      generate_case_number s = some (s.current_year ++ "10000")) ∧
    (∀ (s : Store) (c : ViolationCaseCreate) (s' : Store)
        (row : ViolationCase),
      create_case s c = (s', .ok row) →
      generate_case_number s = some row.case_number) := by
  refine ⟨?_, ?_, iterateAssign_eq, ?_, ?_⟩
  · intro s h
    have hf : (s.cases.map (fun c => c.case_number)).filter
        (fun x => likeYearPref s.current_year x) = [] := by
      rw [List.filter_eq_nil_iff]
      intro n hn
      obtain ⟨c, hc, rfl⟩ := List.mem_map.mp hn
      simp [h c hc]
    rw [generate_case_number]
    exact next_case_number_of_empty _ _ hf
  · intro s m n h1 h2
    rw [generate_case_number]
    exact next_case_number_of_max _ _ m n h1 h2
  · intro s hy h
    have h2 : parseNat (strDrop4 (s.current_year ++ "9999")) = some 9999 := by
      rw [strDrop4_append hy]
      decide
    rw [generate_case_number,
      next_case_number_of_max _ _ (s.current_year ++ "9999") 9999 h h2,
      show pad4 (9999 + 1) = "10000" from by decide]
  · intro s c s' row h
    rw [create_case] at h
    split at h
    · exact absurd (congrArg Prod.snd h) (by simp)
    · rcases hgen : generate_case_number s with _ | num
      · rw [hgen] at h
        have h' : (s, (Except.error (AppError.internalFault
            "ValueError in int()") : Except AppError ViolationCase))
            = (s', .ok row) := h
        exact absurd (congrArg Prod.snd h') (by simp)
      · rw [hgen] at h
        have h' : create_violation_case s c num = (s', .ok row) := h
        rw [create_violation_case_ok_number s c num s' row h']

/-- Witness for C2: three collision-free creations in the empty year 2025
assign 20250001..20250003 in order; a store holding only an older year's
number starts again at 20250001; a store maxed at 20259999 rolls over to
202510000. -/
theorem case_number_generation_spec_witness :
    iterateAssign "2025" 3 = ["20250001", "20250002", "20250003"] ∧
    generate_case_number oldYearStore = some "20250001" ∧
    generate_case_number maxedStore = some "202510000" := by
  refine ⟨?_, ?_, ?_⟩
  · have h := case_number_generation_spec.2.2.1 "2025" (by decide) 3 (by decide)
    rw [h]
    decide
  · have h := case_number_generation_spec.1 oldYearStore (by decide)
    rw [h]
    decide
  · have h := case_number_generation_spec.2.2.2.1 maxedStore (by decide)
      (by decide)
    rw [h]
    decide
